import Mathlib

/-!
Verification of the labgrid remote-transport and capture/replay core.

Shallow embedding of:
- `src/labgrid/driver/sshdriver.py` (SSHDriver): transport session lifecycle,
  remote command execution, file transfer, keepalive monitoring;
- `src/labgrid/driver/rawnetworkinterfacedriver.py` (RawNetworkInterfaceDriver):
  record/replay subprocess lifecycle.

Stateful Python methods become Lean functions from an explicit driver state and
an oracle describing outcomes of the external world (process exit codes,
timeouts, probe results) to a triple of result (`Except` models raised
exceptions), successor state, and a trace of external side effects
(processes spawned, files opened or removed).
-/

set_option linter.unusedVariables false

deriving instance DecidableEq for Except

namespace Labgrid

/-- Python exceptions raised by the embedded code. -/
inductive PyExc where
  | executionError (msg : String)
  | timeoutExpired
  | calledProcessError (rc : Int)
  | assertionError
  | attributeError (attrName : String)
  | inactiveDriverError
  deriving Repr, DecidableEq

/-- Observable external side effects of the embedded code. -/
inductive Eff where
  | spawn (cmd : List String)
  | call (cmd : List String)
  | mkdtemp
  | rmtree (dir : String)
  | openFileW (name : String)
  | openFileR (name : String)
  | wait
  | terminate
  | kill
  | syncToResource (file : String)
  deriving Repr, DecidableEq

/-- Embedding of the Python expression `s.split(sep)` for a one-character
separator: split a character list at every occurrence of `sep`; n separators
yield n+1 chunks. -/
def splitOnChar (sep : Char) : List Char → List (List Char)
  | [] => [[]]
  | c :: cs =>
    match splitOnChar sep cs with
    | [] => [[]]
    | r :: rs => if c = sep then [] :: r :: rs else (c :: r) :: rs

/-- Python `s.split(sep)` on a string, as used by `_run` for tokenizing the
command on spaces and by `_cleanup_own_master` on its formatted command. -/
def pySplit (sep : Char) (s : String) : List String :=
  (splitOnChar sep s.data).map String.mk

/-- Splitting at newlines, the first half of the output decoding of
`SSHDriver._run` (sshdriver.py line 153). -/
def splitNl (l : List Char) : List (List Char) :=
  splitOnChar '\n' l

/-- Embedding of `SSHDriver._run` output decoding (sshdriver.py lines 152-159):
split at newlines, then `pop()`, i.e. drop the final chunk. -/
def decodeLines (l : List Char) : List (List Char) :=
  (splitNl l).dropLast

theorem splitOnChar_ne_nil (sep : Char) (l : List Char) : splitOnChar sep l ≠ [] := by
  induction l with
  | nil => simp [splitOnChar]
  | cons c cs ih =>
    cases hs : splitOnChar sep cs with
    | nil => simp [splitOnChar, hs]
    | cons r rs =>
      by_cases hc : c = sep <;> simp [splitOnChar, hs, hc]

theorem splitOnChar_of_not_mem (sep : Char) (l : List Char) (h : sep ∉ l) :
    splitOnChar sep l = [l] := by
  induction l with
  | nil => simp [splitOnChar]
  | cons c cs ih =>
    rw [List.mem_cons, not_or] at h
    have hc : c ≠ sep := fun hcc => h.1 hcc.symm
    simp [splitOnChar, ih h.2, hc]

theorem splitOnChar_append (sep : Char) (a b : List Char) (hb : sep ∉ b) :
    splitOnChar sep (a ++ sep :: b) = splitOnChar sep a ++ [b] := by
  induction a with
  | nil => simp [splitOnChar, splitOnChar_of_not_mem sep b hb]
  | cons c a ih =>
    cases ha : splitOnChar sep a with
    | nil => exact absurd ha (splitOnChar_ne_nil sep a)
    | cons r0 rs0 =>
      by_cases hc : c = sep <;>
        simp [List.cons_append, splitOnChar, ih, ha, hc]

theorem dropLast_snoc {α : Type} (xs : List α) (x : α) :
    (xs ++ [x]).dropLast = xs := by
  simp

/-! ## SSHDriver (src/labgrid/driver/sshdriver.py) -/

/-- The NetworkService resource the SSHDriver is bound to. -/
structure NetworkService where
  address : String
  port : Nat
  username : String
  password : String
  deriving Repr, DecidableEq

/-- Mutable attributes of an SSHDriver instance. `Option` models Python
attributes that may not have been assigned yet (`none` means accessing the
attribute raises AttributeError) or that hold `None`. `keepalive` is the
`_keepalive` Popen: `none` when the attribute is `None`, `some alive` when a
keepalive process exists, with `alive` the outcome of `poll()` at use time. -/
structure SSHDriverState where
  networkservice : NetworkService
  keyfile : String
  stderr_merge : Bool
  sshPrefixArgs : List String
  control : Option String
  tmpdir : Option String
  keepalive : Option Bool
  deriving Repr, DecidableEq

/-- Oracle for the external world during activation and deactivation:
outcome of the `ssh -O check` probe, exit of the own-master `ssh` process
(`none` = wait(30) timed out), appearance of the control socket, and
timeliness of the keepalive shutdown waits. -/
structure SshWorld where
  externalMasterLive : Bool
  masterSpawnRc : Option Int
  controlSocketAppears : Bool
  keepaliveStopTimely : Bool
  keepaliveWaitTimely : Bool
  deriving Repr, DecidableEq

def userAtHost (ns : NetworkService) : String :=
  ns.username ++ "@" ++ ns.address

/-- Stand-in for the fresh directory returned by
`tempfile.mkdtemp(prefix=...)` in `_start_own_master`. -/
def tmpdirName : String := "/tmp/labgrid-ssh-tmp-x"

/-- The `ssh_prefix` built by `on_activate` (lines 35-42) before the master
check: LogLevel, optional keyfile, optional PasswordAuthentication=no. -/
def basePrefixArgs (st : SSHDriverState) : List String :=
  ["-o", "LogLevel=ERROR"]
  ++ (if st.keyfile ≠ "" then ["-i", st.keyfile] else [])
  ++ (if st.networkservice.password = "" then ["-o", "PasswordAuthentication=no"] else [])

/-- Control socket path allocated inside the scratch directory
(`_start_own_master`, lines 60-63). -/
def controlPathOf (ns : NetworkService) : String :=
  tmpdirName ++ "/control-" ++ ns.address

/-- Argument vector of the own-master `ssh` process (lines 64-71). -/
def startOwnMasterArgs (st : SSHDriverState) : List String :=
  (if st.networkservice.password ≠ "" then ["sshpass", "-e"] else [])
  ++ ["ssh", "-f"] ++ st.sshPrefixArgs
  ++ ["-x", "-o", "ConnectTimeout=30", "-o", "ControlPersist=300",
      "-o", "UserKnownHostsFile=/dev/null", "-o", "StrictHostKeyChecking=no",
      "-o", "ServerAliveInterval=15", "-MN", "-S", controlPathOf st.networkservice,
      "-p", toString st.networkservice.port, userAtHost st.networkservice]

/-- Embedding of `SSHDriver._start_own_master` (lines 58-97): create the
scratch directory, spawn the master, wait for it, check the control socket. -/
def start_own_master (st : SSHDriverState) (w : SshWorld) :
    Except PyExc String × SSHDriverState × List Eff :=
  let st2 := { st with tmpdir := some tmpdirName }
  let effs := [Eff.mkdtemp, Eff.spawn (startOwnMasterArgs st2)]
  match w.masterSpawnRc with
  | none =>
    (.error (.executionError ("failed to connect to " ++ st2.networkservice.address)), st2, effs)
  | some rc =>
    if rc ≠ 0 then
      (.error (.executionError ("failed to connect to " ++ st2.networkservice.address)), st2, effs)
    else if ¬ w.controlSocketAppears then
      (.error (.executionError ("no control socket to " ++ st2.networkservice.address)), st2, effs)
    else
      (.ok (controlPathOf st2.networkservice), st2, effs)

/-- Argument vector of the `ssh -O check` probe (lines 100-104). -/
def checkMasterArgs (ns : NetworkService) : List String :=
  ["ssh", "-O", "check", userAtHost ns]

/-- Embedding of `SSHDriver._check_master` (lines 99-114): probe for a live
external master; on success return the empty control path, otherwise start an
own master. -/
def check_master (st : SSHDriverState) (w : SshWorld) :
    Except PyExc String × SSHDriverState × List Eff :=
  let probe := Eff.call (checkMasterArgs st.networkservice)
  if w.externalMasterLive then
    (.ok "", st, [probe])
  else
    let (r, st2, effs) := start_own_master st w
    (r, st2, probe :: effs)

/-- Embedding of `SSHDriver.on_activate` (lines 34-50): build the prefix, run
the master check, extend the prefix, and start the keepalive. -/
def on_activate (st : SSHDriverState) (w : SshWorld) :
    Except PyExc Unit × SSHDriverState × List Eff :=
  let st1 := { st with sshPrefixArgs := basePrefixArgs st }
  match check_master st1 w with
  | (.error e, st2, effs) => (.error e, st2, effs)
  | (.ok control, st2, effs) =>
    let pre2 := st2.sshPrefixArgs ++ ["-F", "/dev/null"]
      ++ (if control ≠ "" then ["-o", "ControlPath=" ++ control] else [])
    let st3 := { st2 with sshPrefixArgs := pre2, control := some control,
                          keepalive := some true }
    (.ok (), st3, effs ++ [Eff.spawn (["ssh"] ++ pre2 ++ ["cat"])])

/-- Embedding of `SSHDriver._stop_keepalive` (lines 256-269): assert the
keepalive exists, `communicate(timeout=60)`, kill on expiry, `wait(timeout=60)`,
and in all cases reset `_keepalive` to `None`. -/
def stop_keepalive (st : SSHDriverState) (w : SshWorld) :
    Except PyExc Unit × SSHDriverState × List Eff :=
  match st.keepalive with
  | none => (.error .assertionError, st, [])
  | some _ =>
    if w.keepaliveStopTimely then
      (.ok (), { st with keepalive := none }, [Eff.wait])
    else if w.keepaliveWaitTimely then
      (.ok (), { st with keepalive := none }, [Eff.wait, Eff.kill, Eff.wait])
    else
      (.error .timeoutExpired, { st with keepalive := none }, [Eff.wait, Eff.kill, Eff.wait])

/-- The exit command of `_cleanup_own_master` (lines 222-227): a formatted
string split on single spaces, so an empty control path yields the bare token
`ControlPath=`. -/
def cleanupExitCmd (ns : NetworkService) (control : String) : List String :=
  pySplit ' ' ("ssh -x -o ControlPath=" ++ control ++ " -O exit -p "
    ++ toString ns.port ++ " " ++ userAtHost ns)

/-- Embedding of `SSHDriver._cleanup_own_master` (lines 220-237): always run
the control-channel exit command (its exit status is only logged), then
`shutil.rmtree(self.tmpdir)`; accessing an attribute never assigned raises
AttributeError. -/
def cleanup_own_master (st : SSHDriverState) :
    Except PyExc Unit × SSHDriverState × List Eff :=
  match st.control with
  | none => (.error (.attributeError "control"), st, [])
  | some c =>
    let effs := [Eff.call (cleanupExitCmd st.networkservice c)]
    match st.tmpdir with
    | none => (.error (.attributeError "tmpdir"), st, effs)
    | some d => (.ok (), st, effs ++ [Eff.rmtree d])

/-- Embedding of `SSHDriver.on_deactivate` (lines 52-56):
`try: _stop_keepalive() finally: _cleanup_own_master()`; an exception raised
in the finally block replaces the original one. -/
def on_deactivate (st : SSHDriverState) (w : SshWorld) :
    Except PyExc Unit × SSHDriverState × List Eff :=
  let (r1, st1, e1) := stop_keepalive st w
  let (r2, st2, e2) := cleanup_own_master st1
  ((match r2 with
    | .error e => .error e
    | .ok _ => r1), st2, e1 ++ e2)

/-- Oracle for one `_run` invocation: whether `Popen` raises, whether
`communicate(timeout=...)` expires, the decoded output streams, and the exit
status of the remote command. -/
structure RunWorld where
  spawnRaises : Bool
  timesOut : Bool
  stdoutData : List Char
  stderrData : List Char
  returncode : Int
  deriving Repr, DecidableEq

/-- The complete ssh command vector of `_run` (lines 134-137), with the
command tokenized by `split(" ")`. -/
def runCmdArgs (st : SSHDriverState) (command : String) : List String :=
  ["ssh", "-x"] ++ st.sshPrefixArgs
  ++ ["-p", toString st.networkservice.port, userAtHost st.networkservice]
  ++ pySplit ' ' command

/-- Embedding of `SSHDriver._run` (lines 121-160): check the keepalive first
(raising ExecutionError if it exited, AttributeError if it was never started),
spawn the ssh command, wait for it, and decode the output; with
`stderr_merge` the stderr stream is `None` and becomes the empty list. -/
def run_inner (st : SSHDriverState) (command : String) (w : RunWorld) :
    Except PyExc (List (List Char) × List (List Char) × Int) × List Eff :=
  match st.keepalive with
  | none => (.error (.attributeError "poll"), [])
  | some alive =>
    if ¬ alive then
      (.error (.executionError "Keepalive no longer running"), [])
    else if w.spawnRaises then
      (.error (.executionError "error executing command"), [])
    else if w.timesOut then
      (.error .timeoutExpired, [Eff.spawn (runCmdArgs st command), Eff.wait])
    else
      let out := decodeLines w.stdoutData
      let err := if st.stderr_merge then [] else decodeLines w.stderrData
      (.ok (out, err, w.returncode), [Eff.spawn (runCmdArgs st command), Eff.wait])

/-- Oracle for one scp invocation: whether `subprocess.call` raises, and the
exit status of the copy. -/
structure CopyWorld where
  spawnRaises : Bool
  returncode : Int
  deriving Repr, DecidableEq

/-- The scp command vector of `put` (lines 169-178). -/
def putCmdArgs (st : SSHDriverState) (localFile remoteFile : String) : List String :=
  ["scp"] ++ st.sshPrefixArgs
  ++ ["-P", toString st.networkservice.port, localFile,
      userAtHost st.networkservice ++ ":" ++ remoteFile]

/-- Embedding of `SSHDriver.put` (lines 166-191): run scp synchronously; no
keepalive check precedes it; error only when the call raises or exits
non-zero. -/
def put_inner (st : SSHDriverState) (localFile remoteFile : String) (w : CopyWorld) :
    Except PyExc Unit × List Eff :=
  if w.spawnRaises then
    (.error (.executionError "error executing command"), [])
  else if w.returncode ≠ 0 then
    (.error (.executionError "error executing command"), [Eff.call (putCmdArgs st localFile remoteFile)])
  else
    (.ok (), [Eff.call (putCmdArgs st localFile remoteFile)])

/-- The scp command vector of `get` (lines 196-205). -/
def getCmdArgs (st : SSHDriverState) (remoteFile localFile : String) : List String :=
  ["scp"] ++ st.sshPrefixArgs
  ++ ["-P", toString st.networkservice.port,
      userAtHost st.networkservice ++ ":" ++ remoteFile, localFile]

/-- Embedding of `SSHDriver.get` (lines 193-218), symmetric to `put` and
likewise without any keepalive check. -/
def get_inner (st : SSHDriverState) (remoteFile localFile : String) (w : CopyWorld) :
    Except PyExc Unit × List Eff :=
  if w.spawnRaises then
    (.error (.executionError "error executing command"), [])
  else if w.returncode ≠ 0 then
    (.error (.executionError "error executing command"), [Eff.call (getCmdArgs st remoteFile localFile)])
  else
    (.ok (), [Eff.call (getCmdArgs st remoteFile localFile)])

/-! ## Driver activation state machine and capability guard

Modelled from the spec: the binding state machine (`BindingMixin`,
`Driver.check_active` in labgrid/binding.py, and `Target.activate` and
`Target.deactivate` in labgrid/target.py) is not among the provided sources;
only its uses (the `@Driver.check_active` decorators and the
`on_activate`/`on_deactivate` hooks) appear in src/. Per spec section 4.2:
states CREATED, BOUND, ACTIVE, INACTIVE with ACTIVE and INACTIVE cycling
freely; every capability-facing operation invoked while not ACTIVE fails with
InactiveDriverError before running any of the operation body; `deactivate()`
runs the `on_deactivate` hook only when the driver is ACTIVE and is a no-op
otherwise, so it is safe to call multiple times and never raises when there is
nothing to clean up. -/

/-- The binding states a constructed driver cycles through (spec 4.2);
`bound` is the INACTIVE/not-yet-activated state. -/
inductive BindingState where
  | bound
  | active
  deriving Repr, DecidableEq

/-- A driver as seen through the state machine: binding state plus the
SSHDriver instance attributes. -/
structure SshSession where
  binding : BindingState
  drv : SSHDriverState
  deriving Repr, DecidableEq

/-- Modelled from the spec: `Target.activate` runs `on_activate` and marks
the driver ACTIVE only when the hook succeeds; an already-active driver is
left untouched. -/
def SshSession.activate (s : SshSession) (w : SshWorld) :
    Except PyExc Unit × SshSession × List Eff :=
  if s.binding = BindingState.active then
    (.ok (), s, [])
  else
    match on_activate s.drv w with
    | (.ok _, st2, effs) => (.ok (), ⟨BindingState.active, st2⟩, effs)
    | (.error e, st2, effs) => (.error e, { s with drv := st2 }, effs)

/-- Modelled from the spec: `Target.deactivate` is a no-op on a driver that
is not ACTIVE, otherwise it runs `on_deactivate` and marks the driver
inactive on success. -/
def SshSession.deactivate (s : SshSession) (w : SshWorld) :
    Except PyExc Unit × SshSession × List Eff :=
  if s.binding = BindingState.bound then
    (.ok (), s, [])
  else
    match on_deactivate s.drv w with
    | (.ok _, st2, effs) => (.ok (), ⟨BindingState.bound, st2⟩, effs)
    | (.error e, st2, effs) => (.error e, { s with drv := st2 }, effs)

/-- The capability operations the SSHDriver exposes (run, put, get from
CommandProtocol and FileTransferProtocol, and get_status). -/
inductive SshOp where
  | runOp (command : String)
  | putOp (localFile remoteFile : String)
  | getOp (remoteFile localFile : String)
  | getStatusOp
  deriving Repr, DecidableEq

/-- Which SSHDriver operations carry the `@Driver.check_active` decorator in
the source: `run` (line 116), `put` (line 166), `get` (line 193) do;
`get_status` (line 162) does not. -/
def sshGuarded : SshOp → Bool
  | .getStatusOp => false
  | _ => true

/-- Return values of SSHDriver capability operations. -/
inductive SshVal where
  | unitVal
  | status (n : Int)
  | output (stdout stderr : List (List Char)) (rc : Int)
  deriving Repr, DecidableEq

/-- Combined oracle for one SSHDriver operation. -/
structure SshOpWorld where
  runW : RunWorld
  copyW : CopyWorld
  deriving Repr, DecidableEq

/-- One SSHDriver capability invocation: the check_active guard (modelled
from the spec, see above) fires before the body for the decorated operations;
the bodies are the embeddings of the source methods. `get_status`
(lines 162-164) unconditionally returns 1. -/
def sshInvoke (b : BindingState) (st : SSHDriverState) (op : SshOp) (w : SshOpWorld) :
    Except PyExc SshVal × List Eff :=
  if sshGuarded op = true ∧ b ≠ BindingState.active then
    (.error .inactiveDriverError, [])
  else
    match op with
    | .runOp c =>
      match run_inner st c w.runW with
      | (.ok (out, err, rc), effs) => (.ok (.output out err rc), effs)
      | (.error e, effs) => (.error e, effs)
    | .putOp l r =>
      match put_inner st l r w.copyW with
      | (.ok _, effs) => (.ok .unitVal, effs)
      | (.error e, effs) => (.error e, effs)
    | .getOp r l =>
      match get_inner st r l w.copyW with
      | (.ok _, effs) => (.ok .unitVal, effs)
      | (.error e, effs) => (.error e, effs)
    | .getStatusOp => (.ok (.status 1), [])

/-! ## RawNetworkInterfaceDriver (src/labgrid/driver/rawnetworkinterfacedriver.py) -/

/-- The bound network interface resource: interface name, the command
prefix through which a remote resource is reached (empty for a local
interface), and whether the resource is a NetworkResource (the
`isinstance(self.iface, NetworkResource)` test in `start_replay`). -/
structure Iface where
  ifname : String
  commandPrefixArgs : List String
  isNetworkResource : Bool
  deriving Repr, DecidableEq

/-- What the driver keeps of a record Popen: whether its stdout is a pipe
(`stdout=subprocess.PIPE`, the filename-is-None case) or `None` (stdout
redirected to the destination file). -/
structure RecHandle where
  stdoutIsPipe : Bool
  deriving Repr, DecidableEq

/-- Mutable attributes of a RawNetworkInterfaceDriver instance
(`_record_handle` and `_replay_handle`, initialized to `None`). -/
structure NetDriverState where
  iface : Iface
  record_handle : Option RecHandle
  replay_handle : Option Unit
  deriving Repr, DecidableEq

/-- Embedding of `RawNetworkInterfaceDriver._wrap_command` (lines 36-44):
prepend the sudo wrapper; with a command prefix, collapse wrapper and
arguments into a single space-joined string argument. -/
def wrap_command (iface : Iface) (args : List String) : List String :=
  let wrapper := ["sudo", "labgrid-raw-interface"]
  if iface.commandPrefixArgs ≠ [] then
    iface.commandPrefixArgs ++ [String.intercalate " " (wrapper ++ args)]
  else
    wrapper ++ args

/-- Outcome of a `communicate(timeout=...)` wait on a child process. -/
inductive WaitOutcome where
  | exits (rc : Int)
  | expired
  deriving Repr, DecidableEq

/-- Oracle for one `_stop` invocation: outcome of the first bounded wait and
the exit status after the forced termination (the second wait is unbounded
and always returns). -/
structure StopWorld where
  firstWait : WaitOutcome
  secondRc : Int
  deriving Repr, DecidableEq

/-- Embedding of `RawNetworkInterfaceDriver._stop` (lines 46-61): bounded
`communicate`; on expiry terminate, wait again unbounded, and re-raise the
original TimeoutExpired; on a plain exit raise CalledProcessError for a
non-zero status. -/
def stop_proc (w : StopWorld) : Except PyExc Unit × List Eff :=
  match w.firstWait with
  | .exits rc =>
    if rc ≠ 0 then (.error (.calledProcessError rc), [Eff.wait])
    else (.ok (), [Eff.wait])
  | .expired =>
    (.error .timeoutExpired, [Eff.wait, Eff.terminate, Eff.wait])

/-- The tcpdump argument list built by `start_record` (lines 126-131). -/
def tcpdumpCmd (iface : Iface) (count tmo : Option Nat) : List String :=
  ["tcpdump", iface.ifname]
  ++ (match count with | some c => [toString c] | none => [])
  ++ (match tmo with | some t => ["--timeout", toString t] | none => [])

/-- Embedding of the `start_record` body (lines 111-138): the
`assert self._record_handle is None` invariant check comes before the command
is built and before any process is spawned; with a filename the destination
file is opened locally for writing and becomes the stdout of the spawned
process, with no filename stdout is a pipe. -/
def start_record_body (st : NetDriverState) (filename : Option String)
    (count tmo : Option Nat) :
    Except PyExc RecHandle × NetDriverState × List Eff :=
  match st.record_handle with
  | some _ => (.error .assertionError, st, [])
  | none =>
    let cmd := wrap_command st.iface (tcpdumpCmd st.iface count tmo)
    match filename with
    | none =>
      let h : RecHandle := { stdoutIsPipe := true }
      (.ok h, { st with record_handle := some h }, [Eff.spawn cmd])
    | some f =>
      let h : RecHandle := { stdoutIsPipe := false }
      (.ok h, { st with record_handle := some h }, [Eff.openFileW f, Eff.spawn cmd])

/-- Embedding of the `stop_record` body (lines 140-158): `_stop` the record
process (asserting it exists); a TimeoutExpired is swallowed when stdout is a
pipe (live streaming) and re-raised otherwise; the `finally` block resets
`_record_handle` to `None` on every path. -/
def stop_record_body (st : NetDriverState) (w : StopWorld) :
    Except PyExc Unit × NetDriverState × List Eff :=
  match st.record_handle with
  | none => (.error .assertionError, { st with record_handle := none }, [])
  | some h =>
    let (r, effs) := stop_proc w
    let st2 := { st with record_handle := none }
    match r with
    | .ok _ => (.ok (), st2, effs)
    | .error PyExc.timeoutExpired =>
      if h.stdoutIsPipe then (.ok (), st2, effs)
      else (.error .timeoutExpired, st2, effs)
    | .error e => (.error e, st2, effs)

/-- Modelled from the spec: `ManagedFile.get_remote_path`
(labgrid/util/managedfile.py) is not among the provided sources; the spec
(section 4.5) says the artifact is synchronized to the remote resource before
replay, so the remote path is some host-side location of the file. -/
def managedFileRemotePath (filename : String) : String :=
  "/var/cache/labgrid/" ++ filename

/-- Embedding of the `start_replay` body (lines 181-204): the
`assert self._replay_handle is None` check precedes everything; for a
NetworkResource the file is synchronized to the resource and replayed there
through a shell redirection collapsed into one argument, otherwise the local
file is opened and fed to tcpreplay on stdin. -/
def start_replay_body (st : NetDriverState) (filename : String) :
    Except PyExc Unit × NetDriverState × List Eff :=
  match st.replay_handle with
  | some _ => (.error .assertionError, st, [])
  | none =>
    if st.iface.isNetworkResource then
      let cmd := wrap_command st.iface
        ["tcpreplay " ++ st.iface.ifname ++ " < " ++ managedFileRemotePath filename]
      (.ok (), { st with replay_handle := some () },
        [Eff.syncToResource filename, Eff.spawn cmd])
    else
      let cmd := wrap_command st.iface ["tcpreplay", st.iface.ifname]
      (.ok (), { st with replay_handle := some () },
        [Eff.openFileR filename, Eff.spawn cmd])

/-- Embedding of the `stop_replay` body (lines 206-219): `_stop` the replay
process; no live-stream exception; the `finally` block resets
`_replay_handle` to `None` on every path. -/
def stop_replay_body (st : NetDriverState) (w : StopWorld) :
    Except PyExc Unit × NetDriverState × List Eff :=
  match st.replay_handle with
  | none => (.error .assertionError, { st with replay_handle := none }, [])
  | some _ =>
    let (r, effs) := stop_proc w
    (r, { st with replay_handle := none }, effs)

/-- The `ip --json -stats -stats link show` command of `get_statistics`
(lines 242-247). -/
def statisticsCmd (iface : Iface) : List String :=
  iface.commandPrefixArgs
  ++ ["ip", "--json", "-stats", "-stats", "link", "show", iface.ifname]

/-- The capability operations of the RawNetworkInterfaceDriver covered by
the claims; every one of them carries `@Driver.check_active` in the source
(lines 111, 140, 181, 206, 236). -/
inductive NetOp where
  | startRecordOp (filename : Option String) (count tmo : Option Nat)
  | stopRecordOp
  | startReplayOp (filename : String)
  | stopReplayOp
  | getStatisticsOp
  deriving Repr, DecidableEq

/-- Return values of RawNetworkInterfaceDriver operations; statistics output
is the opaque parsed blob of the external query tool. -/
inductive NetVal where
  | unitVal
  | handle (h : RecHandle)
  | stats (s : String)
  deriving Repr, DecidableEq

/-- Oracle for one RawNetworkInterfaceDriver operation. -/
structure NetWorld where
  stopW : StopWorld
  statsOutput : String
  deriving Repr, DecidableEq

/-- One RawNetworkInterfaceDriver capability invocation: the check_active
guard (modelled from the spec, section 4.2) fires before every body. -/
def netInvoke (b : BindingState) (st : NetDriverState) (op : NetOp) (w : NetWorld) :
    Except PyExc NetVal × NetDriverState × List Eff :=
  if b ≠ BindingState.active then
    (.error .inactiveDriverError, st, [])
  else
    match op with
    | .startRecordOp fn cnt tmo =>
      match start_record_body st fn cnt tmo with
      | (.ok h, st2, effs) => (.ok (.handle h), st2, effs)
      | (.error e, st2, effs) => (.error e, st2, effs)
    | .stopRecordOp =>
      match stop_record_body st w.stopW with
      | (.ok _, st2, effs) => (.ok .unitVal, st2, effs)
      | (.error e, st2, effs) => (.error e, st2, effs)
    | .startReplayOp f =>
      match start_replay_body st f with
      | (.ok _, st2, effs) => (.ok .unitVal, st2, effs)
      | (.error e, st2, effs) => (.error e, st2, effs)
    | .stopReplayOp =>
      match stop_replay_body st w.stopW with
      | (.ok _, st2, effs) => (.ok .unitVal, st2, effs)
      | (.error e, st2, effs) => (.error e, st2, effs)
    | .getStatisticsOp =>
      (.ok (.stats w.statsOutput), st, [Eff.call (statisticsCmd st.iface)])

/-! ## Sample concrete instances used by closed statements -/

def sampleNs : NetworkService :=
  { address := "192.168.0.2", port := 22, username := "root", password := "" }

/-- A freshly constructed SSHDriver: no attribute assigned beyond the
constructor defaults, `_keepalive = None`. -/
def freshDrv : SSHDriverState :=
  { networkservice := sampleNs, keyfile := "", stderr_merge := false,
    sshPrefixArgs := [], control := none, tmpdir := none, keepalive := none }

/-- World in which the `ssh -O check` probe finds a live external master and
every later wait is timely. -/
def reuseWorld : SshWorld :=
  { externalMasterLive := true, masterSpawnRc := some 0,
    controlSocketAppears := true, keepaliveStopTimely := true,
    keepaliveWaitTimely := true }

/-- An SSHDriver that established its own master: control socket and scratch
directory allocated, keepalive running. -/
def ownDrv : SSHDriverState :=
  { networkservice := sampleNs, keyfile := "", stderr_merge := false,
    sshPrefixArgs := ["-o", "LogLevel=ERROR", "-o", "PasswordAuthentication=no",
                      "-F", "/dev/null", "-o", "ControlPath=" ++ controlPathOf sampleNs],
    control := some (controlPathOf sampleNs), tmpdir := some tmpdirName,
    keepalive := some true }

/-- The `ownDrv` driver after its keepalive process exited. -/
def deadKeepDrv : SSHDriverState := { ownDrv with keepalive := some false }

def ownSession : SshSession := ⟨BindingState.active, ownDrv⟩

def copyOkWorld : CopyWorld := { spawnRaises := false, returncode := 0 }

def runOkWorld : RunWorld :=
  { spawnRaises := false, timesOut := false, stdoutData := [],
    stderrData := [], returncode := 0 }

def sampleOpWorld : SshOpWorld := { runW := runOkWorld, copyW := copyOkWorld }

def remoteIface : Iface :=
  { ifname := "eth0", commandPrefixArgs := ["ssh", "exporter"],
    isNetworkResource := true }

def localIface : Iface :=
  { ifname := "eth1", commandPrefixArgs := [], isNetworkResource := false }

def netDrv0 : NetDriverState :=
  { iface := remoteIface, record_handle := none, replay_handle := none }

def localNetDrv : NetDriverState :=
  { iface := localIface, record_handle := none, replay_handle := none }

def busyNetDrv : NetDriverState :=
  { iface := localIface, record_handle := some { stdoutIsPipe := false },
    replay_handle := some () }

def netWorld0 : NetWorld :=
  { stopW := { firstWait := WaitOutcome.exits 0, secondRc := 0 }, statsOutput := "" }

def expiredStopWorld : StopWorld :=
  { firstWait := WaitOutcome.expired, secondRc := 0 }

/-! ## Claim theorems -/

/-- C1: the claim says a session that reused an already-live control channel
creates no scratch directory or control socket during activation (which the
code satisfies), and that its deactivation never attempts a control-channel
exit or a scratch-directory removal. The code fails the second half:
`on_deactivate` calls `_cleanup_own_master` unconditionally, so a reused
session still runs the `ssh -O exit` command (with an empty ControlPath) and
then evaluates `shutil.rmtree(self.tmpdir)`, which raises AttributeError
because `tmpdir` is only ever assigned in `_start_own_master`. This theorem
evaluates the embedded code at that failing input. -/
theorem c1_reused_master_deactivate_bug :
    ((on_activate freshDrv reuseWorld).1 = Except.ok ()
      ∧ (on_activate freshDrv reuseWorld).2.1.control = some ""
      ∧ (on_activate freshDrv reuseWorld).2.1.tmpdir = none
      ∧ Eff.mkdtemp ∉ (on_activate freshDrv reuseWorld).2.2)
    ∧ ((on_deactivate (on_activate freshDrv reuseWorld).2.1 reuseWorld).1
        = Except.error (PyExc.attributeError "tmpdir")
      ∧ Eff.call (cleanupExitCmd sampleNs "")
          ∈ (on_deactivate (on_activate freshDrv reuseWorld).2.1 reuseWorld).2.2) := by
  decide

/-- C2: a transport-session driver that has been activated and then
deactivated once is left in the inactive binding state, so a second
deactivate in a row is a no-op (no effects, same state) and raises nothing.
The dispatcher is modelled from the spec (section 4.2). -/
theorem c2_deactivate_twice_noop (s s1 : SshSession) (w1 w2 : SshWorld)
    (effs : List Eff)
    (h : SshSession.deactivate s w1 = (Except.ok (), s1, effs)) :
    SshSession.deactivate s1 w2 = (Except.ok (), s1, []) := by
  unfold SshSession.deactivate at h ⊢
  by_cases hb : s.binding = BindingState.bound
  · rw [if_pos hb] at h
    simp only [Prod.mk.injEq] at h
    obtain ⟨-, hs, -⟩ := h
    rw [← hs, if_pos hb]
  · rw [if_neg hb] at h
    rcases hod : on_deactivate s.drv w1 with ⟨r, st2, effs2⟩
    rw [hod] at h
    cases r with
    | error e => simp at h
    | ok u =>
      simp only [Prod.mk.injEq] at h
      obtain ⟨-, hs, -⟩ := h
      rw [← hs]
      simp

/-- C2 witness: a concrete own-master session deactivated once; the second
deactivate is a no-op. -/
theorem c2_deactivate_twice_noop_witness :
    SshSession.deactivate (SshSession.deactivate ownSession reuseWorld).2.1 reuseWorld
      = (Except.ok (), (SshSession.deactivate ownSession reuseWorld).2.1, []) :=
  c2_deactivate_twice_noop ownSession
    (SshSession.deactivate ownSession reuseWorld).2.1 reuseWorld reuseWorld
    (SshSession.deactivate ownSession reuseWorld).2.2 (by decide)

/-- C3 counterexample: on a driver whose keepalive process has exited
(`keepalive = some false`), `put` neither raises a transport-lost error nor
refrains from the copy: it returns normally and the scp copy command is
spawned; `get` behaves the same. This refutes the claim that every command or
file-transfer operation fails fast on a dead keepalive before attempting the
command. -/
theorem c3_put_ignores_dead_keepalive :
    put_inner deadKeepDrv "data.bin" "/tmp/data.bin" copyOkWorld
        = (Except.ok (), [Eff.call (putCmdArgs deadKeepDrv "data.bin" "/tmp/data.bin")])
      ∧ get_inner deadKeepDrv "/tmp/data.bin" "data.bin" copyOkWorld
        = (Except.ok (), [Eff.call (getCmdArgs deadKeepDrv "/tmp/data.bin" "data.bin")])
      ∧ putCmdArgs deadKeepDrv "data.bin" "/tmp/data.bin" ≠ [] := by
  decide

/-- C3 amended: only `run` checks keepalive liveness; if the keepalive
process has exited, `run` fails immediately with
ExecutionError "Keepalive no longer running" (the error the spec calls
TransportLostError) and spawns nothing. `put` and `get` perform no keepalive
check at all: their behavior is entirely independent of the keepalive
state. -/
theorem c3_amended_keepalive_guard :
    (∀ (st : SSHDriverState) (c : String) (w : RunWorld),
        st.keepalive = some false →
        run_inner st c w
          = (Except.error (PyExc.executionError "Keepalive no longer running"), []))
    ∧ (∀ (st : SSHDriverState) (l r : String) (w : CopyWorld) (k : Option Bool),
        put_inner { st with keepalive := k } l r w = put_inner st l r w)
    ∧ (∀ (st : SSHDriverState) (r l : String) (w : CopyWorld) (k : Option Bool),
        get_inner { st with keepalive := k } r l w = get_inner st r l w) := by
  refine ⟨?_, ?_, ?_⟩
  · intro st c w h
    simp [run_inner, h]
  · intro st l r w k
    rfl
  · intro st r l w k
    rfl

/-- C3 witness: the amended keepalive guard evaluated on the concrete driver
with a dead keepalive. -/
theorem c3_amended_keepalive_guard_witness :
    deadKeepDrv.keepalive = some false
    ∧ run_inner deadKeepDrv "uname -a" runOkWorld
        = (Except.error (PyExc.executionError "Keepalive no longer running"), []) :=
  ⟨rfl, c3_amended_keepalive_guard.1 deadKeepDrv "uname -a" runOkWorld rfl⟩

/-- C4 counterexample: `get_status` carries no check_active guard in the
source (sshdriver.py lines 162-164), so invoking it on a driver that is not
ACTIVE does not fail with InactiveDriverError: it returns 1. -/
theorem c4_get_status_unguarded :
    sshInvoke BindingState.bound freshDrv SshOp.getStatusOp sampleOpWorld
        = (Except.ok (SshVal.status 1), [])
      ∧ (Except.ok (SshVal.status 1) : Except PyExc SshVal)
          ≠ Except.error PyExc.inactiveDriverError := by
  decide

/-- C4 amended: every capability operation that carries the
check_active guard (run, put, get, start_record, stop_record, start_replay,
stop_replay, get_statistics) fails with InactiveDriverError when the driver
is not ACTIVE, with no external process spawned and no state change;
`get_status` is the exception: it is unguarded and returns 1 in any binding
state. -/
theorem c4_amended_active_guard :
    (∀ (b : BindingState) (st : SSHDriverState) (op : SshOp) (w : SshOpWorld),
        sshGuarded op = true → b ≠ BindingState.active →
        sshInvoke b st op w = (Except.error PyExc.inactiveDriverError, []))
    ∧ (∀ (b : BindingState) (st : NetDriverState) (op : NetOp) (w : NetWorld),
        b ≠ BindingState.active →
        netInvoke b st op w = (Except.error PyExc.inactiveDriverError, st, []))
    ∧ (∀ (b : BindingState) (st : SSHDriverState) (w : SshOpWorld),
        sshInvoke b st SshOp.getStatusOp w = (Except.ok (SshVal.status 1), [])) := by
  refine ⟨?_, ?_, ?_⟩
  · intro b st op w hg hb
    simp [sshInvoke, hg, hb]
  · intro b st op w hb
    simp [netInvoke, hb]
  · intro b st w
    simp [sshInvoke, sshGuarded]

/-- C4 witness: the amended guard evaluated on concrete inactive drivers for
a run operation and a stop_record operation. -/
theorem c4_amended_active_guard_witness :
    sshInvoke BindingState.bound freshDrv (SshOp.runOp "true") sampleOpWorld
        = (Except.error PyExc.inactiveDriverError, [])
      ∧ netInvoke BindingState.bound netDrv0 NetOp.stopRecordOp netWorld0
        = (Except.error PyExc.inactiveDriverError, netDrv0, []) :=
  ⟨c4_amended_active_guard.1 BindingState.bound freshDrv (SshOp.runOp "true")
      sampleOpWorld rfl (by decide),
   c4_amended_active_guard.2.1 BindingState.bound netDrv0 NetOp.stopRecordOp
      netWorld0 (by decide)⟩

/-- C5: when the first wait of `stop_record` times out, a capture started
with no destination file (live stream, stdout is a pipe) is stopped without
raising, while a capture started with a destination file escalates: the
process is terminated, waited for again, and the original TimeoutExpired is
re-raised; in both cases the handle is cleared. -/
theorem c5_stop_record_timeout (st0 st1 : NetDriverState) (h : RecHandle)
    (cnt tmo : Option Nat) (effs : List Eff) (w : StopWorld)
    (hw : w.firstWait = WaitOutcome.expired) :
    (start_record_body st0 none cnt tmo = (Except.ok h, st1, effs) →
        stop_record_body st1 w
          = (Except.ok (), { st1 with record_handle := none },
             [Eff.wait, Eff.terminate, Eff.wait]))
    ∧ (∀ f : String,
        start_record_body st0 (some f) cnt tmo = (Except.ok h, st1, effs) →
        stop_record_body st1 w
          = (Except.error PyExc.timeoutExpired, { st1 with record_handle := none },
             [Eff.wait, Eff.terminate, Eff.wait])) := by
  constructor
  · intro heq
    unfold start_record_body at heq
    cases hrec : st0.record_handle with
    | some h0 => rw [hrec] at heq; simp at heq
    | none =>
      rw [hrec] at heq
      simp only [Prod.mk.injEq, Except.ok.injEq] at heq
      obtain ⟨hh, hs, -⟩ := heq
      subst hh
      rw [← hs]
      simp [stop_record_body, stop_proc, hw]
  · intro f heq
    unfold start_record_body at heq
    cases hrec : st0.record_handle with
    | some h0 => rw [hrec] at heq; simp at heq
    | none =>
      rw [hrec] at heq
      simp only [Prod.mk.injEq, Except.ok.injEq] at heq
      obtain ⟨hh, hs, -⟩ := heq
      subst hh
      rw [← hs]
      simp [stop_record_body, stop_proc, hw]

/-- C5 witness: a concrete local capture, started once without and once with
a destination file, stopped under a first-wait timeout. -/
theorem c5_stop_record_timeout_witness :
    expiredStopWorld.firstWait = WaitOutcome.expired
    ∧ stop_record_body
        { localNetDrv with record_handle := some { stdoutIsPipe := true } }
        expiredStopWorld
      = (Except.ok (),
         { localNetDrv with record_handle := none },
         [Eff.wait, Eff.terminate, Eff.wait])
    ∧ stop_record_body
        { localNetDrv with record_handle := some { stdoutIsPipe := false } }
        expiredStopWorld
      = (Except.error PyExc.timeoutExpired,
         { localNetDrv with record_handle := none },
         [Eff.wait, Eff.terminate, Eff.wait]) :=
  ⟨rfl,
   (c5_stop_record_timeout localNetDrv
      { localNetDrv with record_handle := some { stdoutIsPipe := true } }
      { stdoutIsPipe := true } (some 1) none
      [Eff.spawn (wrap_command localIface (tcpdumpCmd localIface (some 1) none))]
      expiredStopWorld rfl).1 (by decide),
   (c5_stop_record_timeout localNetDrv
      { localNetDrv with record_handle := some { stdoutIsPipe := false } }
      { stdoutIsPipe := false } (some 1) none
      [Eff.openFileW "out.pcap",
       Eff.spawn (wrap_command localIface (tcpdumpCmd localIface (some 1) none))]
      expiredStopWorld rfl).2 "out.pcap" (by decide)⟩

/-- C6: with a record (respectively replay) process outstanding, a second
start_record (respectively start_replay) on the same active driver fails
with the assertion-grade AssertionError, with no process spawned, no other
side effect, and the driver state unchanged: the invariant check precedes
all side effects. -/
theorem c6_second_start_fails_first (st : NetDriverState) (w : NetWorld)
    (fn : Option String) (cnt tmo : Option Nat) (f : String) :
    (st.record_handle.isSome = true →
        netInvoke BindingState.active st (NetOp.startRecordOp fn cnt tmo) w
          = (Except.error PyExc.assertionError, st, []))
    ∧ (st.replay_handle.isSome = true →
        netInvoke BindingState.active st (NetOp.startReplayOp f) w
          = (Except.error PyExc.assertionError, st, [])) := by
  constructor
  · intro hr
    cases hrec : st.record_handle with
    | none => rw [hrec] at hr; simp at hr
    | some h0 => simp [netInvoke, start_record_body, hrec]
  · intro hr
    cases hrep : st.replay_handle with
    | none => rw [hrep] at hr; simp at hr
    | some u => simp [netInvoke, start_replay_body, hrep]

/-- C6 witness: a concrete driver with both a record and a replay process
outstanding rejects both second starts. -/
theorem c6_second_start_fails_first_witness :
    busyNetDrv.record_handle.isSome = true
    ∧ busyNetDrv.replay_handle.isSome = true
    ∧ netInvoke BindingState.active busyNetDrv
        (NetOp.startRecordOp (some "x.pcap") (some 2) none) netWorld0
      = (Except.error PyExc.assertionError, busyNetDrv, [])
    ∧ netInvoke BindingState.active busyNetDrv (NetOp.startReplayOp "x.pcap") netWorld0
      = (Except.error PyExc.assertionError, busyNetDrv, []) :=
  ⟨rfl, rfl,
   (c6_second_start_fails_first busyNetDrv netWorld0 (some "x.pcap") (some 2) none
      "x.pcap").1 rfl,
   (c6_second_start_fails_first busyNetDrv netWorld0 (some "x.pcap") (some 2) none
      "x.pcap").2 rfl⟩

/-- C7: the claim says a capture against a remote interface resource writes
its artifact to a freshly allocated temporary path on the remote host,
tracked in a mapping keyed by the process handle and fetched later with
get_record. The code in src does none of this: evaluated at the failing
input (a remote resource, destination file record.pcap), `start_record`
opens the caller-supplied path as a local file and redirects the stdout of
the prefixed tcpdump command into it; the driver state afterwards holds only
the bare handle, with no handle-to-artifact association, and the driver
defines no get_record at all, so the repository example
(src/examples/network-test/pkg-replay-record.py line 48) calls a method that
does not exist. -/
theorem c7_remote_record_local_artifact :
    netInvoke BindingState.active netDrv0
        (NetOp.startRecordOp (some "record.pcap") (some 1) none) netWorld0
      = (Except.ok (NetVal.handle { stdoutIsPipe := false }),
         { netDrv0 with record_handle := some { stdoutIsPipe := false } },
         [Eff.openFileW "record.pcap",
          Eff.spawn ["ssh", "exporter", "sudo labgrid-raw-interface tcpdump eth0 1"]]) := by
  decide

/-- C8: on an active executor with a live keepalive, a run whose command is
spawned successfully and exits before the timeout returns
(stdout lines, stderr lines, exit code) without raising, for every exit code
including non-zero ones; ExecutionError is raised only in the cases where no
remote command was spawned; when the wait times out, the TimeoutExpired
propagates to the caller. -/
theorem c8_run_contract (st : SSHDriverState) (c : String) (w : RunWorld) :
    (st.keepalive = some true → w.spawnRaises = false → w.timesOut = false →
        run_inner st c w
          = (Except.ok (decodeLines w.stdoutData,
              (if st.stderr_merge then [] else decodeLines w.stderrData),
              w.returncode),
             [Eff.spawn (runCmdArgs st c), Eff.wait]))
    ∧ (∀ (m : String) (effs : List Eff),
        run_inner st c w = (Except.error (PyExc.executionError m), effs) →
        ∀ cmd : List String, Eff.spawn cmd ∉ effs)
    ∧ (st.keepalive = some true → w.spawnRaises = false → w.timesOut = true →
        run_inner st c w
          = (Except.error PyExc.timeoutExpired,
             [Eff.spawn (runCmdArgs st c), Eff.wait])) := by
  refine ⟨?_, ?_, ?_⟩
  · intro hk hs ht
    simp [run_inner, hk, hs, ht]
  · intro m effs heq cmd
    unfold run_inner at heq
    cases hk : st.keepalive with
    | none => rw [hk] at heq; simp at heq
    | some alive =>
      rw [hk] at heq
      cases alive with
      | false => simp at heq; simp [heq.2]
      | true =>
        simp only [Bool.not_true, if_false] at heq
        by_cases hs : w.spawnRaises
        · simp [hs] at heq; simp [heq.2]
        · by_cases ht : w.timesOut
          · simp [hs, ht] at heq
          · simp [hs, ht] at heq
  · intro hk hs ht
    simp [run_inner, hk, hs, ht]

/-- C8 witness: a concrete run of a failing command (exit code 1) returns
the decoded output tuple without raising. -/
theorem c8_run_contract_witness :
    ownDrv.keepalive = some true
    ∧ run_inner ownDrv "false"
        { spawnRaises := false, timesOut := false, stdoutData := ['o', 'k', '\n'],
          stderrData := ['e', '\n'], returncode := 1 }
      = (Except.ok (decodeLines ['o', 'k', '\n'],
           (if ownDrv.stderr_merge then []
            else decodeLines ['e', '\n']), (1 : Int)),
         [Eff.spawn (runCmdArgs ownDrv "false"), Eff.wait]) :=
  ⟨rfl,
   (c8_run_contract ownDrv "false"
      { spawnRaises := false, timesOut := false, stdoutData := ['o', 'k', '\n'],
        stderrData := ['e', '\n'], returncode := 1 }).1 rfl rfl rfl⟩

/-- C9: the output decoding of `_run` keeps only the chunks before the last
newline: output with no newline at all decodes to the empty list, and any
text after the last newline is discarded, leaving exactly the
newline-terminated lines. -/
theorem c9_text_after_last_newline_dropped :
    (∀ l : List Char, '\n' ∉ l → decodeLines l = [])
    ∧ (∀ a b : List Char, '\n' ∉ b → decodeLines (a ++ '\n' :: b) = splitNl a)
    ∧ (∀ a : List Char, decodeLines (a ++ ['\n']) = splitNl a) := by
  refine ⟨?_, ?_, ?_⟩
  · intro l h
    rw [decodeLines, splitNl, splitOnChar_of_not_mem '\n' l h]
    rfl
  · intro a b hb
    rw [decodeLines, splitNl, splitOnChar_append '\n' a b hb, dropLast_snoc]
    rfl
  · intro a
    have hb : ('\n' : Char) ∉ ([] : List Char) := by simp
    rw [decodeLines, splitNl, splitOnChar_append '\n' a [] hb, dropLast_snoc]
    rfl

/-- C9 witness: concrete outputs with and without a trailing fragment. -/
theorem c9_text_after_last_newline_dropped_witness :
    ('\n' ∉ (['n', 'o', 'n', 'l'] : List Char))
    ∧ decodeLines ['n', 'o', 'n', 'l'] = []
    ∧ decodeLines (['a', 'b'] ++ '\n' :: ['c', 'd']) = splitNl ['a', 'b'] :=
  ⟨by decide,
   c9_text_after_last_newline_dropped.1 ['n', 'o', 'n', 'l'] (by decide),
   c9_text_after_last_newline_dropped.2.1 ['a', 'b'] ['c', 'd'] (by decide)⟩

/-- C10: after every stop_record or stop_replay call, whatever its outcome
(normal return, swallowed or re-raised timeout, non-zero exit status, or
even a missing handle), the corresponding handle is reset to None, so a
subsequent start_record or start_replay on the same driver instance never
fails its outstanding-process assertion. -/
theorem c10_stop_resets_handles (st : NetDriverState) (w : StopWorld)
    (fn : Option String) (cnt tmo : Option Nat) (f : String) :
    (stop_record_body st w).2.1.record_handle = none
    ∧ (stop_replay_body st w).2.1.replay_handle = none
    ∧ (start_record_body (stop_record_body st w).2.1 fn cnt tmo).1
        ≠ Except.error PyExc.assertionError
    ∧ (start_replay_body (stop_replay_body st w).2.1 f).1
        ≠ Except.error PyExc.assertionError := by
  have hrec : (stop_record_body st w).2.1.record_handle = none := by
    cases hrh : st.record_handle with
    | none => simp [stop_record_body, hrh]
    | some h =>
      cases hfw : w.firstWait with
      | expired =>
        by_cases hp : h.stdoutIsPipe <;>
          simp [stop_record_body, hrh, stop_proc, hfw, hp]
      | exits rc =>
        by_cases hrc : rc = 0 <;>
          simp [stop_record_body, hrh, stop_proc, hfw, hrc]
  have hrep : (stop_replay_body st w).2.1.replay_handle = none := by
    cases hrh : st.replay_handle with
    | none => simp [stop_replay_body, hrh]
    | some u =>
      cases hfw : w.firstWait with
      | expired => simp [stop_replay_body, hrh, stop_proc, hfw]
      | exits rc =>
        by_cases hrc : rc = 0 <;>
          simp [stop_replay_body, hrh, stop_proc, hfw, hrc]
  refine ⟨hrec, hrep, ?_, ?_⟩
  · unfold start_record_body
    rw [hrec]
    cases fn <;> simp
  · unfold start_replay_body
    rw [hrep]
    split
    · simp_all
    · split <;> simp

end Labgrid
